import Mathlib

/-!
Shallow embedding of `src/sqlquerybuilder.hpp` (namespace `sql::v1`):
the SQL value / condition model and the bounded `QueryBuilder`, together
with theorems settling the specification claims.

Conventions of the embedding:
* `std::string` / `std::string_view` become Lean `String`; character-level
  loops become functions on `List Char`.
* Fixed-capacity arrays (`std::array<T, N>` plus a `count` field) become
  Lean lists whose length is bounded by the configured capacity; the list
  holds exactly the first `count` entries, in order.
* The `double` variant of `SqlValue` is represented by the decimal text
  `std::to_string` would produce, carried opaquely (no claim depends on
  floating-point formatting).
* Exceptions are explicit: renderers that `throw` return `Except`, and
  `buildResult` distinguishes a returned `Result` error from an exception
  escaping it (a C++ `QueryError` is *not* derived from `std::exception`,
  so the `catch (const std::exception&)` inside `buildResult` does not
  catch the `QueryError` thrown by `buildInsert` / `buildUpdate`).
* The mutable `last_error_` member is threaded explicitly: mutators return
  the updated builder, `buildResult` returns the outcome paired with the
  updated builder.  Under `ThrowOnError = true` the same state update
  happens before the raise, so the state transition functions below
  describe both policies; only control flow differs.
-/

namespace SqlQB

/-- Embeds `DefaultConfig` from the header: the compile-time capacity policy. -/
structure Config where
  MaxColumns : Nat
  MaxConditions : Nat
  MaxJoins : Nat
  MaxOrderBy : Nat
  MaxGroupBy : Nat
  MaxInValues : Nat
  ThrowOnError : Bool
deriving Repr, DecidableEq

/-- The default configuration (`struct DefaultConfig`). -/
def DefaultConfig : Config :=
  { MaxColumns := 32, MaxConditions := 16, MaxJoins := 4, MaxOrderBy := 8,
    MaxGroupBy := 8, MaxInValues := 16, ThrowOnError := false }

/-- Embeds `QueryError::Code`. -/
inductive ErrorCode where
  | none
  | tooManyColumns
  | tooManyConditions
  | tooManyJoins
  | emptyTable
  | invalidColumn
  | invalidCondition
  | tooManyOrderBy
  | tooManyGroupBy
  | invalidOperation
deriving Repr, DecidableEq

/-- Embeds `struct QueryError`: an error code plus a message. -/
structure QueryError where
  code : ErrorCode
  message : String
deriving Repr, DecidableEq

/-- Embeds `Placeholder::Style`. -/
inductive PlaceholderStyle where
  | questionMark
  | dollar
  | colon
  | atSign
deriving Repr, DecidableEq

/-- Embeds `class Placeholder`: stored name plus the style inferred at construction. -/
structure Placeholder where
  name : String
  style : PlaceholderStyle
deriving Repr, DecidableEq

/-- The `Placeholder(std::string_view name)` constructor: infers the style
from the leading character; a name with no leading sigil gets a colon
synthesized in front of it. -/
def Placeholder.make (name : String) : Placeholder :=
  match name.data with
  | [] => { name := name, style := .questionMark }
  | c :: _ =>
    if c = ':' then { name := name, style := .colon }
    else if c = '@' then { name := name, style := .atSign }
    else if c = '$' then { name := name, style := .dollar }
    else { name := ":" ++ name, style := .colon }

/-- Embeds `Placeholder::toString`. -/
def Placeholder.render (p : Placeholder) : String :=
  match p.style with
  | .questionMark => "?"
  | .dollar => p.name
  | .colon => p.name
  | .atSign => p.name

/-- Embeds `SqlValue<Config>`'s storage variant.  The `double` alternative carries
the decimal text `std::to_string(double)` would produce. -/
inductive SqlValue where
  | null
  | int (i : Int)
  | float (repr : String)
  | bool (b : Bool)
  | text (s : String)
  | placeholder (p : Placeholder)
deriving Repr, DecidableEq

/-- The character loop inside `SqlValue::escapeString`: every single quote
is doubled, every other character is copied unchanged. -/
def escapeChars : List Char → List Char
  | [] => []
  | c :: rest =>
    if c = '\'' then '\'' :: '\'' :: escapeChars rest
    else c :: escapeChars rest

/-- Embeds `SqlValue::escapeString`: wrap in single quotes, doubling embedded ones. -/
def SqlValue.escapeString (s : String) : String :=
  "'" ++ String.mk (escapeChars s.data) ++ "'"

/-- Embeds `SqlValue::toSqlString`.  Note the C++ visitor tests
`std::is_integral_v<T>` before the dedicated `bool` branch and `bool` is
integral in C++, so a boolean renders via `std::to_string(int(b))`, which
is the same `"1"` / `"0"` text the dedicated branch would produce. -/
def SqlValue.toSqlString : SqlValue → String
  | .null => "NULL"
  | .int i => toString i
  | .float r => r
  | .bool b => if b then "1" else "0"
  | .text s => SqlValue.escapeString s
  | .placeholder p => p.render

/-- Embeds `ConditionBase::Op`. -/
inductive Op where
  | eq | ne | lt | le | gt | ge
  | isNullOp | isNotNullOp
  | inOp | notInOp
  | like | notLike
  | between
  | raw
  | andOp | orOp
deriving Repr, DecidableEq

/-- Embeds `ConditionBase::opToString`. -/
def Op.toSqlText : Op → String
  | .eq => "="
  | .ne => "!="
  | .lt => "<"
  | .le => "<="
  | .gt => ">"
  | .ge => ">="
  | .like => "LIKE"
  | .notLike => "NOT LIKE"
  | .andOp => "AND"
  | .orOp => "OR"
  | _ => ""

/-- Embeds `ConditionBase::Type`. -/
inductive CondType where
  | invalid
  | simpleValue
  | columnColumn
  | betweenT
  | isNullT
  | isNotNullT
  | rawT
  | compound
  | inT
deriving Repr, DecidableEq

/-- The `ConditionVariant` payload of a `Condition`.  The IN payload's
fixed array plus count is represented by the list of its first `count`
entries; the Compound payload stores the two already-rendered sides. -/
inductive CondData where
  | noneD
  | simpleD (value : SqlValue)
  | betweenD (start stop : SqlValue)
  | columnColumnD (rightColumn rightTable : String)
  | rawD (rawSql : String)
  | inD (values : List SqlValue)
  | compoundD (leftCondition rightCondition : String) (op : Op)
deriving Repr, DecidableEq

/-- Embeds `class Condition<Config>`. -/
structure Condition where
  type : CondType
  op : Op
  negated : Bool
  column : String
  table : String
  data : CondData
deriving Repr, DecidableEq

namespace Condition

/-- The default constructor: an invalid condition. -/
def invalid : Condition :=
  { type := .invalid, op := .eq, negated := false,
    column := "", table := "", data := .noneD }

/-- Embeds `Condition(std::string_view raw_condition)`. -/
def rawCond (rawSql : String) : Condition :=
  { invalid with type := .rawT, data := .rawD rawSql }

/-- Embeds `Condition(column, op, value)`: a `column OP value` condition. -/
def simpleCond (column : String) (op : Op) (value : SqlValue) : Condition :=
  { invalid with
      type := .simpleValue, op := op, column := column,
      data := .simpleD value }

/-- Embeds `Condition(left_table, left_column, op, right_table, right_column)`. -/
def columnColumnCond (leftTable leftColumn : String) (op : Op)
    (rightTable rightColumn : String) : Condition :=
  { invalid with
      type := .columnColumn, op := op,
      table := leftTable, column := leftColumn,
      data := .columnColumnD rightColumn rightTable }

/-- Embeds `Condition(column, op, value1, value2)`: a BETWEEN condition. -/
def betweenCond (column : String) (op : Op) (v1 v2 : SqlValue) : Condition :=
  { invalid with
      type := .betweenT, op := op, column := column,
      data := .betweenD v1 v2 }

/-- Embeds `Condition::isNull`. -/
def isNullCond (column : String) : Condition :=
  { invalid with type := .isNullT, column := column }

/-- Embeds `Condition::isNotNull`. -/
def isNotNullCond (column : String) : Condition :=
  { invalid with type := .isNotNullT, column := column }

/-- Embeds `Condition::in`: keeps at most `MaxInValues` values
(`count = min(values.size, MaxInValues)`), in their original order. -/
def inCond (cfg : Config) (column : String) (values : List SqlValue) : Condition :=
  { invalid with
      type := .inT, op := .inOp, column := column,
      data := .inD (values.take cfg.MaxInValues) }

/-- Embeds `Condition::notIn`: same as `in`, then `op_ = Op::NotIn`. -/
def notInCond (cfg : Config) (column : String) (values : List SqlValue) : Condition :=
  { inCond cfg column values with op := .notInOp }

/-- Embeds `Condition::operator!`: flips the negation flag. -/
def negate (c : Condition) : Condition :=
  { c with negated := !c.negated }

end Condition

/-- Comma-join, matching the `if (i > 0) query += ", "` loops. -/
def commaJoin (parts : List String) : String :=
  String.intercalate ", " parts

/-- The body of `Condition::toString`'s `switch (type_)`.  Conditions built
by the constructors above always have the payload their type expects; the
final catch-all matches the `default:` label of the switch. -/
def Condition.body (c : Condition) : String :=
  match c.type, c.data with
  | .rawT, .rawD s => s
  | .isNullT, _ => c.column ++ " IS NULL"
  | .isNotNullT, _ => c.column ++ " IS NOT NULL"
  | .betweenT, .betweenD v1 v2 =>
      c.column ++ " BETWEEN " ++ v1.toSqlString ++ " AND " ++ v2.toSqlString
  | .simpleValue, .simpleD v =>
      c.column ++ " " ++ c.op.toSqlText ++ " " ++ v.toSqlString
  | .columnColumn, .columnColumnD rightCol rightTab =>
      if c.table ≠ "" ∧ rightTab ≠ "" then
        c.table ++ "." ++ c.column ++ " " ++ c.op.toSqlText ++ " "
          ++ rightTab ++ "." ++ rightCol
      else
        c.column ++ " " ++ c.op.toSqlText ++ " " ++ rightCol
  | .compound, .compoundD l r op2 =>
      "(" ++ l ++ ") " ++ op2.toSqlText ++ " (" ++ r ++ ")"
  | .inT, .inD vs =>
      c.column ++ (if c.op = .inOp then " IN (" else " NOT IN (")
        ++ commaJoin (vs.map SqlValue.toSqlString) ++ ")"
  | _, _ => "UNKNOWN CONDITION TYPE"

/-- Embeds `Condition::toString`: the invalid marker, then the optional `NOT (...)`
wrapper around the switch body. -/
def Condition.render (c : Condition) : String :=
  if c.type = .invalid then "INVALID CONDITION"
  else if c.negated then "NOT (" ++ c.body ++ ")"
  else c.body

/-- Embeds `Condition::operator&&`: renders both sides to text at combination time
and stores the two strings in a Compound payload. -/
def Condition.andC (a b : Condition) : Condition :=
  { Condition.invalid with
      type := .compound, op := .andOp,
      data := .compoundD a.render b.render .andOp }

/-- Embeds `Condition::operator||`. -/
def Condition.orC (a b : Condition) : Condition :=
  { Condition.invalid with
      type := .compound, op := .orOp,
      data := .compoundD a.render b.render .orOp }

/-- Embeds `Column::eq` (also reached through `operator==(Column, T&&)`). -/
def colEq (column : String) (v : SqlValue) : Condition :=
  Condition.simpleCond column .eq v

/-- Embeds `enum class SqlFunction`. -/
inductive SqlFunction where
  | noneF | count | sum | avg | min | max | groupConcat
deriving Repr, DecidableEq

/-- Embeds `ColumnRef<Config>`: one select-list entry. -/
structure ColumnRef where
  column : String
  function : SqlFunction
  aliasName : String
deriving Repr, DecidableEq

/-- Embeds `ColumnRef(column)`: a plain, unwrapped, unaliased column. -/
def ColumnRef.plain (column : String) : ColumnRef :=
  { column := column, function := .noneF, aliasName := "" }

/-- Embeds `ColumnRef::toSql`. -/
def ColumnRef.toSql (c : ColumnRef) : String :=
  (match c.function with
   | .count => "COUNT(" ++ c.column ++ ")"
   | .sum => "SUM(" ++ c.column ++ ")"
   | .avg => "AVG(" ++ c.column ++ ")"
   | .min => "MIN(" ++ c.column ++ ")"
   | .max => "MAX(" ++ c.column ++ ")"
   | .groupConcat => "GROUP_CONCAT(" ++ c.column ++ ")"
   | .noneF => c.column)
  ++ (if c.aliasName ≠ "" then " AS " ++ c.aliasName else "")

/-- Embeds `Join::Type`. -/
inductive JoinType where
  | inner | left | right | full | cross
deriving Repr, DecidableEq

/-- The `type_str` switch inside `Join::toString`. -/
def JoinType.keyword : JoinType → String
  | .inner => "INNER JOIN"
  | .left => "LEFT JOIN"
  | .right => "RIGHT JOIN"
  | .full => "FULL JOIN"
  | .cross => "CROSS JOIN"

/-- Embeds `class Join<Config>`. -/
structure Join where
  type : JoinType
  table : String
  condition : String
deriving Repr, DecidableEq

/-- Embeds `Join::toString`. -/
def Join.render (j : Join) : String :=
  j.type.keyword ++ " " ++ j.table ++ " ON " ++ j.condition

/-- Embeds `QueryBuilder::QueryType`. -/
inductive QueryType where
  | select | insert | insertOrReplace | update | delete | truncate
deriving Repr, DecidableEq

/-- Embeds `QueryBuilder<Config>`'s state: the `core_`, `columns_`, `filters_` and
`ordering_` member structs flattened, with each fixed array plus count
represented by the list of its first `count` entries. -/
structure QueryBuilder where
  type : QueryType
  table : String
  distinct : Bool
  select_columns : List ColumnRef
  values : List (String × SqlValue)
  where_conditions : List Condition
  joins : List Join
  order_by : List (String × Bool)
  group_by : List String
  having : String
  limit : Int
  offset : Int
  last_error : Option QueryError
deriving Repr, DecidableEq

namespace QueryBuilder

/-- The default-constructed builder (all counts zero, `limit = offset = -1`,
no error); `reset()` restores exactly this state. -/
def empty : QueryBuilder :=
  { type := .select, table := "", distinct := false,
    select_columns := [], values := [], where_conditions := [], joins := [],
    order_by := [], group_by := [], having := "", limit := -1, offset := -1,
    last_error := Option.none }

/-- The `TooManyColumns` error built by `select`. -/
def tooManyColumnsErr (cfg : Config) : QueryError :=
  ⟨.tooManyColumns, "Too many columns: limit is " ++ toString cfg.MaxColumns⟩

/-- The `TooManyColumns` error built by `value` / `set` (message says
"values", the code reuses the column limit and the column error code). -/
def tooManyValuesErr (cfg : Config) : QueryError :=
  ⟨.tooManyColumns, "Too many values: limit is " ++ toString cfg.MaxColumns⟩

/-- The `TooManyConditions` error built by the `where*` family. -/
def tooManyConditionsErr (cfg : Config) : QueryError :=
  ⟨.tooManyConditions, "Too many conditions: limit is " ++ toString cfg.MaxConditions⟩

/-- The `TooManyJoins` error built by the join methods. -/
def tooManyJoinsErr (cfg : Config) : QueryError :=
  ⟨.tooManyJoins, "Too many joins: limit is " ++ toString cfg.MaxJoins⟩

/-- The `TooManyOrderBy` error built by `orderBy`. -/
def tooManyOrderByErr (cfg : Config) : QueryError :=
  ⟨.tooManyOrderBy, "Too many order by clauses: limit is " ++ toString cfg.MaxOrderBy⟩

/-- The `TooManyGroupBy` error built by `groupBy`. -/
def tooManyGroupByErr (cfg : Config) : QueryError :=
  ⟨.tooManyGroupBy, "Too many group by clauses: limit is " ++ toString cfg.MaxGroupBy⟩

/-- Embeds `select(std::span<const std::string_view>)`: sets the statement kind
first, then checks `count + cols.size() > MaxColumns`; on overflow it
records the error and appends nothing, otherwise it appends every column
as a plain `ColumnRef`.  (Under `ThrowOnError` the same error is raised
after being recorded; the resulting state is identical.) -/
def selectCols (cfg : Config) (q : QueryBuilder) (cols : List String) : QueryBuilder :=
  let q := { q with type := .select }
  if q.select_columns.length + cols.length > cfg.MaxColumns then
    { q with last_error := some (tooManyColumnsErr cfg) }
  else
    { q with select_columns := q.select_columns ++ cols.map ColumnRef.plain }

/-- Embeds `from(table)`. -/
def fromTable (q : QueryBuilder) (t : String) : QueryBuilder :=
  { q with table := t }

/-- Embeds `where(condition)`: capacity-checked append of a predicate. -/
def whereCond (cfg : Config) (q : QueryBuilder) (c : Condition) : QueryBuilder :=
  if q.where_conditions.length ≥ cfg.MaxConditions then
    { q with last_error := some (tooManyConditionsErr cfg) }
  else
    { q with where_conditions := q.where_conditions ++ [c] }

/-- Embeds `whereIn(column, values)`: capacity-checked append of an IN condition
(the value list itself is truncated inside `Condition::in`). -/
def whereIn (cfg : Config) (q : QueryBuilder) (column : String)
    (vs : List SqlValue) : QueryBuilder :=
  if q.where_conditions.length ≥ cfg.MaxConditions then
    { q with last_error := some (tooManyConditionsErr cfg) }
  else
    { q with where_conditions := q.where_conditions ++ [Condition.inCond cfg column vs] }

/-- Embeds `whereNotIn(column, values)`. -/
def whereNotIn (cfg : Config) (q : QueryBuilder) (column : String)
    (vs : List SqlValue) : QueryBuilder :=
  if q.where_conditions.length ≥ cfg.MaxConditions then
    { q with last_error := some (tooManyConditionsErr cfg) }
  else
    { q with where_conditions := q.where_conditions ++ [Condition.notInCond cfg column vs] }

/-- Embeds `orderBy(column, asc)`: capacity-checked append. -/
def orderByCol (cfg : Config) (q : QueryBuilder) (column : String) (asc : Bool) :
    QueryBuilder :=
  if q.order_by.length ≥ cfg.MaxOrderBy then
    { q with last_error := some (tooManyOrderByErr cfg) }
  else
    { q with order_by := q.order_by ++ [(column, asc)] }

/-- Embeds `groupBy(column)`: capacity-checked append. -/
def groupByCol (cfg : Config) (q : QueryBuilder) (column : String) : QueryBuilder :=
  if q.group_by.length ≥ cfg.MaxGroupBy then
    { q with last_error := some (tooManyGroupByErr cfg) }
  else
    { q with group_by := q.group_by ++ [column] }

/-- Embeds `limit(n)`. -/
def setLimit (q : QueryBuilder) (n : Int) : QueryBuilder :=
  { q with limit := n }

/-- Embeds `offset(n)`. -/
def setOffset (q : QueryBuilder) (n : Int) : QueryBuilder :=
  { q with offset := n }

/-- Embeds `distinct()`. -/
def setDistinct (q : QueryBuilder) : QueryBuilder :=
  { q with distinct := true }

/-- Embeds `having(condition)`. -/
def setHaving (q : QueryBuilder) (h : String) : QueryBuilder :=
  { q with having := h }

/-- Embeds `insert(table)`. -/
def insertInto (q : QueryBuilder) (t : String) : QueryBuilder :=
  { q with type := .insert, table := t }

/-- Embeds `insertOrReplace(table)`. -/
def insertOrReplaceInto (q : QueryBuilder) (t : String) : QueryBuilder :=
  { q with type := .insertOrReplace, table := t }

/-- Embeds `update(table)`. -/
def updateTable (q : QueryBuilder) (t : String) : QueryBuilder :=
  { q with type := .update, table := t }

/-- Embeds `deleteFrom(table)`. -/
def deleteFromTable (q : QueryBuilder) (t : String) : QueryBuilder :=
  { q with type := .delete, table := t }

/-- Embeds `truncate(table)`. -/
def truncateTable (q : QueryBuilder) (t : String) : QueryBuilder :=
  { q with type := .truncate, table := t }

/-- Embeds `value(column, val)`: capacity-checked append of a (column, value)
pair for INSERT. -/
def valuePair (cfg : Config) (q : QueryBuilder) (column : String) (v : SqlValue) :
    QueryBuilder :=
  if q.values.length ≥ cfg.MaxColumns then
    { q with last_error := some (tooManyValuesErr cfg) }
  else
    { q with values := q.values ++ [(column, v)] }

/-- Embeds `set(column, val)`: the UPDATE twin of `value`; the C++ bodies are
character-for-character the same check and append. -/
def setPair (cfg : Config) (q : QueryBuilder) (column : String) (v : SqlValue) :
    QueryBuilder :=
  if q.values.length ≥ cfg.MaxColumns then
    { q with last_error := some (tooManyValuesErr cfg) }
  else
    { q with values := q.values ++ [(column, v)] }

/-- Embeds `innerJoin(table, condition)`: capacity-checked append of a join. -/
def innerJoin (cfg : Config) (q : QueryBuilder) (t cond : String) : QueryBuilder :=
  if q.joins.length ≥ cfg.MaxJoins then
    { q with last_error := some (tooManyJoinsErr cfg) }
  else
    { q with joins := q.joins ++ [⟨.inner, t, cond⟩] }

/-- The column-list segment of `buildSelect`: `*` when no column was
selected, otherwise the comma-joined rendered `ColumnRef`s. -/
def selectColumnsSeg (q : QueryBuilder) : String :=
  if q.select_columns = [] then "*"
  else commaJoin (q.select_columns.map ColumnRef.toSql)

/-- The JOIN segment of `buildSelect`: a space then the rendered join, for
each accumulated join. -/
def joinsSeg (q : QueryBuilder) : String :=
  String.join (q.joins.map (fun j => " " ++ j.render))

/-- The WHERE segment shared by `buildSelect`, `buildUpdate` and
`buildDelete`: empty when no predicate, else ` WHERE ` followed by the
predicates AND-joined in insertion order. -/
def whereSeg (q : QueryBuilder) : String :=
  if q.where_conditions = [] then ""
  else " WHERE " ++ String.intercalate " AND " (q.where_conditions.map Condition.render)

/-- The GROUP BY segment of `buildSelect`; per the source, HAVING is only
emitted inside a non-empty GROUP BY block. -/
def groupBySeg (q : QueryBuilder) : String :=
  if q.group_by = [] then ""
  else " GROUP BY " ++ commaJoin q.group_by
    ++ (if q.having ≠ "" then " HAVING " ++ q.having else "")

/-- The ORDER BY segment of `buildSelect`. -/
def orderBySeg (q : QueryBuilder) : String :=
  if q.order_by = [] then ""
  else " ORDER BY "
    ++ commaJoin (q.order_by.map (fun p => p.1 ++ " " ++ (if p.2 then "ASC" else "DESC")))

/-- The LIMIT segment of `buildSelect` (emitted when `limit_ >= 0`). -/
def limitSeg (q : QueryBuilder) : String :=
  if q.limit ≥ 0 then " LIMIT " ++ toString q.limit else ""

/-- The OFFSET segment of `buildSelect` (emitted when `offset_ >= 0`). -/
def offsetSeg (q : QueryBuilder) : String :=
  if q.offset ≥ 0 then " OFFSET " ++ toString q.offset else ""

/-- Embeds `QueryBuilder::buildSelect`: the appends of the C++ body, in order. -/
def buildSelect (q : QueryBuilder) : String :=
  "SELECT " ++ (if q.distinct then "DISTINCT " else "")
    ++ selectColumnsSeg q ++ " FROM " ++ q.table
    ++ joinsSeg q ++ whereSeg q ++ groupBySeg q ++ orderBySeg q
    ++ limitSeg q ++ offsetSeg q

/-- Embeds `QueryBuilder::buildInsert`: throws `QueryError{InvalidCondition}` when
no (column, value) pair was accumulated. -/
def buildInsert (q : QueryBuilder) (orReplace : Bool) : Except QueryError String :=
  if q.values = [] then
    .error ⟨.invalidCondition, "No values specified for INSERT"⟩
  else
    .ok ("INSERT" ++ (if orReplace then " OR REPLACE" else "")
      ++ " INTO " ++ q.table
      ++ " (" ++ commaJoin (q.values.map Prod.fst) ++ ") VALUES ("
      ++ commaJoin (q.values.map (fun p => p.2.toSqlString)) ++ ")")

/-- Embeds `QueryBuilder::buildUpdate`: throws `QueryError{InvalidCondition}` when
no (column, value) pair was accumulated. -/
def buildUpdate (q : QueryBuilder) : Except QueryError String :=
  if q.values = [] then
    .error ⟨.invalidCondition, "No values specified for UPDATE"⟩
  else
    .ok ("UPDATE " ++ q.table ++ " SET "
      ++ commaJoin (q.values.map (fun p => p.1 ++ " = " ++ p.2.toSqlString))
      ++ whereSeg q)

/-- Embeds `QueryBuilder::buildDelete`. -/
def buildDelete (q : QueryBuilder) : String :=
  "DELETE FROM " ++ q.table ++ whereSeg q

/-- Embeds `QueryBuilder::buildTruncate`. -/
def buildTruncate (q : QueryBuilder) : String :=
  "TRUNCATE TABLE " ++ q.table

end QueryBuilder

/-- The observable outcome of `buildResult()`:
* `ok` — a `Result<std::string>` holding the query text;
* `err` — a `Result<std::string>` holding a typed `QueryError`;
* `thrown` — an exception escaping `buildResult` entirely.  `QueryError`
  is not derived from `std::exception`, so a `QueryError` thrown by
  `buildInsert` / `buildUpdate` is *not* caught by the
  `catch (const std::exception&)` inside `buildResult` and propagates to
  the caller in both error-policy modes. -/
inductive BuildOutcome where
  | ok (query : String)
  | err (e : QueryError)
  | thrown (e : QueryError)
deriving Repr, DecidableEq

namespace QueryBuilder

/-- Embeds `QueryBuilder::buildResult`, with the mutation of the `mutable`
`last_error_` member made explicit: returns the outcome paired with the
builder in its post-call state.  The empty-table precondition exempts
SELECT (`core_.table.empty() && core_.type != QueryType::Select`). -/
def buildResult (q : QueryBuilder) : BuildOutcome × QueryBuilder :=
  if q.table = "" ∧ q.type ≠ .select then
    let e : QueryError := ⟨.emptyTable, "Table name is required"⟩
    (.err e, { q with last_error := some e })
  else
    match q.type with
    | .select => (.ok (buildSelect q), q)
    | .insert =>
      match buildInsert q false with
      | .ok s => (.ok s, q)
      | .error e => (.thrown e, q)
    | .insertOrReplace =>
      match buildInsert q true with
      | .ok s => (.ok s, q)
      | .error e => (.thrown e, q)
    | .update =>
      match buildUpdate q with
      | .ok s => (.ok s, q)
      | .error e => (.thrown e, q)
    | .delete => (.ok (buildDelete q), q)
    | .truncate => (.ok (buildTruncate q), q)

/-- Embeds `QueryBuilder::build` under the non-throwing policy
(`ThrowOnError = false`): a returned error is rendered as the inert
comment string; an escaping exception still escapes. -/
def build (q : QueryBuilder) : BuildOutcome × QueryBuilder :=
  match buildResult q with
  | (.ok s, q2) => (.ok s, q2)
  | (.err e, q2) => (.ok ("/* ERROR: " ++ e.message ++ " */"), q2)
  | (.thrown e, q2) => (.thrown e, q2)

end QueryBuilder

/-! ## Concrete states and spec-side helpers used by the claim theorems -/

/-- Modelled from the spec's wording for the escaping contract: every
embedded single quote is doubled and no other character is altered,
expressed as a character-wise expansion. -/
def doubleQuotesSpec (l : List Char) : List Char :=
  l.flatMap fun c => if c = '\'' then ['\'', '\''] else [c]

/-- Modelled from the spec's wording for the round trip: scanning left to
right, each doubled quote `''` is replaced by a single `'`. -/
def undoubleQuotes : List Char → List Char
  | [] => []
  | [c] => [c]
  | c1 :: c2 :: rest =>
    if c1 = '\'' ∧ c2 = '\'' then '\'' :: undoubleQuotes rest
    else c1 :: undoubleQuotes (c2 :: rest)

/-- Stripping the outer quotes of a rendered literal: drop the first and
the last character. -/
def stripOuterQuotes (l : List Char) : List Char :=
  (l.drop 1).dropLast

/-- The builder chain
`select(["id","name"]).from("users").where(col("active")==true)
.orderBy("created_at", false).limit(10)`. -/
def exampleSelect : QueryBuilder :=
  ((((QueryBuilder.empty.selectCols DefaultConfig ["id", "name"]).fromTable
      "users").whereCond DefaultConfig
      (colEq "active" (SqlValue.bool true))).orderByCol DefaultConfig
      "created_at" false).setLimit 10

/-- A capacity policy with every limit set to one, used to witness the
overflow behaviour on small concrete states. -/
def tinyConfig : Config :=
  { MaxColumns := 1, MaxConditions := 1, MaxJoins := 1, MaxOrderBy := 1,
    MaxGroupBy := 1, MaxInValues := 1, ThrowOnError := false }

/-- A builder whose every bounded list is exactly at `tinyConfig`'s
capacity. -/
def fullBuilder : QueryBuilder :=
  { QueryBuilder.empty with
      select_columns := [ColumnRef.plain "a"],
      values := [("a", SqlValue.null)],
      where_conditions := [Condition.rawCond "x = 1"],
      joins := [⟨.inner, "t", "t.id = u.id"⟩],
      order_by := [("a", true)],
      group_by := ["a"] }

/-- The builder chain `select([]).from("")`. -/
def emptyTableSelect : QueryBuilder :=
  (QueryBuilder.empty.selectCols DefaultConfig []).fromTable ""

/-- The builder chain `insert("users")` with no `value` calls. -/
def zeroValuesInsert : QueryBuilder :=
  QueryBuilder.empty.insertInto "users"

end SqlQB

namespace SqlQB

/-! ## Claim C1: text-literal escaping and its round trip -/

theorem escapeChars_eq_doubleQuotesSpec (l : List Char) :
    escapeChars l = doubleQuotesSpec l := by
  induction l with
  | nil => rfl
  | cons c rest ih =>
    by_cases hc : c = '\'' <;>
      simp [escapeChars, doubleQuotesSpec, hc] <;>
      simpa [doubleQuotesSpec] using ih

theorem escapeChars_ne_nil_of_ne_nil {l : List Char} (h : l ≠ []) :
    escapeChars l ≠ [] := by
  cases l with
  | nil => exact absurd rfl h
  | cons c rest =>
    by_cases hc : c = '\'' <;> simp [escapeChars, hc]

theorem undoubleQuotes_escapeChars (l : List Char) :
    undoubleQuotes (escapeChars l) = l := by
  induction l with
  | nil => rfl
  | cons c rest ih =>
    by_cases hc : c = '\''
    · subst hc
      simp [escapeChars, undoubleQuotes, ih]
    · rcases hrest : escapeChars rest with _ | ⟨d, l2⟩
      · have : rest = [] := by
          cases rest with
          | nil => rfl
          | cons d r2 =>
            exact absurd hrest (escapeChars_ne_nil_of_ne_nil (by simp))
        subst this
        simp [escapeChars, hc, undoubleQuotes]
      · simp only [escapeChars, if_neg hc, hrest]
        rw [undoubleQuotes]
        rw [if_neg (by simp [hc])]
        rw [← hrest, ih]

/-- C1: rendering a text value produces the original characters surrounded
by single quotes with every embedded quote doubled and nothing else
altered; stripping the outer quotes and undoubling `''` to `'` recovers
the original string exactly. -/
theorem text_literal_escape_roundtrip (s : String) :
    (SqlValue.text s).toSqlString.data
        = '\'' :: doubleQuotesSpec s.data ++ ['\''] ∧
    String.mk (undoubleQuotes (stripOuterQuotes (SqlValue.text s).toSqlString.data))
        = s := by
  have hdata : (SqlValue.text s).toSqlString.data
      = '\'' :: escapeChars s.data ++ ['\''] := by
    show (SqlValue.escapeString s).data = _
    simp [SqlValue.escapeString, String.data_append]
  constructor
  · rw [hdata, escapeChars_eq_doubleQuotesSpec]
  · rw [hdata]
    show String.mk (undoubleQuotes (((('\'' :: escapeChars s.data ++ ['\''])).drop 1).dropLast)) = s
    simp only [List.drop_succ_cons, List.drop_zero, List.cons_append]
    rw [List.dropLast_concat, undoubleQuotes_escapeChars]

end SqlQB

namespace SqlQB

/-! ## Claim C2: SELECT clause order and the literal example -/

/-- C2: the literal chain renders exactly the expected statement, and in
general `buildSelect` emits the canonical clause order
verb → columns → FROM → JOINs → WHERE (AND-joined, insertion order) →
GROUP BY (+ HAVING) → ORDER BY → LIMIT → OFFSET, each optional clause
rendering empty when its backing list is empty. -/
theorem select_clause_order_and_example :
    (QueryBuilder.build exampleSelect).1
      = .ok "SELECT id, name FROM users WHERE active = 1 ORDER BY created_at DESC LIMIT 10"
    ∧ ∀ q : QueryBuilder,
      QueryBuilder.buildSelect q
        = "SELECT " ++ (if q.distinct then "DISTINCT " else "")
          ++ QueryBuilder.selectColumnsSeg q ++ " FROM " ++ q.table
          ++ QueryBuilder.joinsSeg q ++ QueryBuilder.whereSeg q
          ++ QueryBuilder.groupBySeg q ++ QueryBuilder.orderBySeg q
          ++ QueryBuilder.limitSeg q ++ QueryBuilder.offsetSeg q
      ∧ (q.joins = [] → QueryBuilder.joinsSeg q = "")
      ∧ (q.where_conditions ≠ [] →
          QueryBuilder.whereSeg q
            = " WHERE " ++ String.intercalate " AND "
                (q.where_conditions.map Condition.render))
      ∧ (q.where_conditions = [] → QueryBuilder.whereSeg q = "")
      ∧ (q.group_by = [] → QueryBuilder.groupBySeg q = "")
      ∧ (q.order_by = [] → QueryBuilder.orderBySeg q = "")
      ∧ (q.limit < 0 → QueryBuilder.limitSeg q = "")
      ∧ (q.offset < 0 → QueryBuilder.offsetSeg q = "") := by
  refine ⟨by decide, fun q => ⟨rfl, ?_, ?_, ?_, ?_, ?_, ?_, ?_⟩⟩
  · intro h; simp [QueryBuilder.joinsSeg, h, String.join]
  · intro h; simp [QueryBuilder.whereSeg, h]
  · intro h; simp [QueryBuilder.whereSeg, h]
  · intro h; simp [QueryBuilder.groupBySeg, h]
  · intro h; simp [QueryBuilder.orderBySeg, h]
  · intro h; simp [QueryBuilder.limitSeg, h, not_le.mpr h]
  · intro h; simp [QueryBuilder.offsetSeg, h, not_le.mpr h]

/-- Witness for C2: the theorem applied at concrete builders, discharging
each emptiness hypothesis. -/
theorem select_clause_order_witness :
    QueryBuilder.joinsSeg QueryBuilder.empty = ""
    ∧ QueryBuilder.whereSeg QueryBuilder.empty = ""
    ∧ QueryBuilder.groupBySeg QueryBuilder.empty = ""
    ∧ QueryBuilder.orderBySeg QueryBuilder.empty = ""
    ∧ QueryBuilder.limitSeg QueryBuilder.empty = ""
    ∧ QueryBuilder.offsetSeg QueryBuilder.empty = ""
    ∧ QueryBuilder.whereSeg exampleSelect
        = " WHERE " ++ String.intercalate " AND "
            (exampleSelect.where_conditions.map Condition.render) :=
  ⟨(select_clause_order_and_example.2 QueryBuilder.empty).2.1 rfl,
   (select_clause_order_and_example.2 QueryBuilder.empty).2.2.2.1 rfl,
   (select_clause_order_and_example.2 QueryBuilder.empty).2.2.2.2.1 rfl,
   (select_clause_order_and_example.2 QueryBuilder.empty).2.2.2.2.2.1 rfl,
   (select_clause_order_and_example.2 QueryBuilder.empty).2.2.2.2.2.2.1 (by decide),
   (select_clause_order_and_example.2 QueryBuilder.empty).2.2.2.2.2.2.2 (by decide),
   (select_clause_order_and_example.2 exampleSelect).2.2.1 (by decide)⟩

end SqlQB

namespace SqlQB

/-! ## Claim C3: capacity overflow is a recorded-error no-op -/

/-- C3: with a list already at its configured capacity, one more append
leaves the builder unchanged except for recording the matching `TooMany*`
error: the list (hence its count and all previously accepted entries) and
every other field keep their values.  `select` additionally (re)sets the
statement kind before the capacity check, as the source does. -/
theorem capacity_overflow_records_error (cfg : Config) (q : QueryBuilder)
    (c : Condition) (cols : List String) (colName : String) (v : SqlValue)
    (tbl onCond : String) (asc : Bool) :
    (q.where_conditions.length = cfg.MaxConditions →
      q.whereCond cfg c
        = { q with last_error := some (QueryBuilder.tooManyConditionsErr cfg) })
    ∧ (q.select_columns.length = cfg.MaxColumns → cols ≠ [] →
      q.selectCols cfg cols
        = { q with type := .select,
                   last_error := some (QueryBuilder.tooManyColumnsErr cfg) })
    ∧ (q.values.length = cfg.MaxColumns →
      q.valuePair cfg colName v
        = { q with last_error := some (QueryBuilder.tooManyValuesErr cfg) })
    ∧ (q.joins.length = cfg.MaxJoins →
      q.innerJoin cfg tbl onCond
        = { q with last_error := some (QueryBuilder.tooManyJoinsErr cfg) })
    ∧ (q.order_by.length = cfg.MaxOrderBy →
      q.orderByCol cfg colName asc
        = { q with last_error := some (QueryBuilder.tooManyOrderByErr cfg) })
    ∧ (q.group_by.length = cfg.MaxGroupBy →
      q.groupByCol cfg colName
        = { q with last_error := some (QueryBuilder.tooManyGroupByErr cfg) }) := by
  refine ⟨?_, ?_, ?_, ?_, ?_, ?_⟩
  · intro h; simp [QueryBuilder.whereCond, h]
  · intro h hc
    have hlen : 0 < cols.length := List.length_pos.mpr hc
    simp [QueryBuilder.selectCols, h, hlen]
  · intro h; simp [QueryBuilder.valuePair, h]
  · intro h; simp [QueryBuilder.innerJoin, h]
  · intro h; simp [QueryBuilder.orderByCol, h]
  · intro h; simp [QueryBuilder.groupByCol, h]

/-- Witness for C3: the theorem applied at `tinyConfig` and `fullBuilder`,
discharging every at-capacity hypothesis by evaluation. -/
theorem capacity_overflow_records_error_witness :
    (fullBuilder.whereCond tinyConfig (Condition.rawCond "y = 2")
      = { fullBuilder with
            last_error := some (QueryBuilder.tooManyConditionsErr tinyConfig) })
    ∧ (fullBuilder.selectCols tinyConfig ["b"]
      = { fullBuilder with
            type := .select,
            last_error := some (QueryBuilder.tooManyColumnsErr tinyConfig) })
    ∧ (fullBuilder.valuePair tinyConfig "b" SqlValue.null
      = { fullBuilder with
            last_error := some (QueryBuilder.tooManyValuesErr tinyConfig) })
    ∧ (fullBuilder.innerJoin tinyConfig "u" "u.id = t.id"
      = { fullBuilder with
            last_error := some (QueryBuilder.tooManyJoinsErr tinyConfig) })
    ∧ (fullBuilder.orderByCol tinyConfig "b" false
      = { fullBuilder with
            last_error := some (QueryBuilder.tooManyOrderByErr tinyConfig) })
    ∧ (fullBuilder.groupByCol tinyConfig "b"
      = { fullBuilder with
            last_error := some (QueryBuilder.tooManyGroupByErr tinyConfig) }) :=
  have h := capacity_overflow_records_error tinyConfig fullBuilder
    (Condition.rawCond "y = 2") ["b"] "b" SqlValue.null "u" "u.id = t.id" false
  ⟨h.1 rfl, h.2.1 rfl (by decide), h.2.2.1 rfl, h.2.2.2.1 rfl,
   h.2.2.2.2.1 rfl, h.2.2.2.2.2 rfl⟩

end SqlQB

namespace SqlQB

/-! ## Claim C4: empty table on SELECT -/

/-- Counterexample to C4: the empty-table precondition in `buildResult`
explicitly exempts SELECT (`core_.table.empty() && core_.type !=
QueryType::Select`), so `select([]).from("")` builds successfully into the
degenerate statement `SELECT * FROM ` and records no error at all. -/
theorem select_empty_table_not_error :
    (QueryBuilder.buildResult emptyTableSelect).1 = .ok "SELECT * FROM "
    ∧ (QueryBuilder.buildResult emptyTableSelect).2.last_error = Option.none := by
  decide

/-- C4 (amended): with an empty target table, `buildResult` yields the
typed `EmptyTable` error for every non-SELECT statement kind, while a
SELECT is exempt and renders the degenerate statement (the model's
`buildResult` is the same in both error-policy modes; only `build`'s
control flow differs). -/
theorem empty_table_error_except_select (q : QueryBuilder) (h : q.table = "") :
    (QueryBuilder.buildResult q).1
      = if q.type = .select then .ok (QueryBuilder.buildSelect q)
        else .err ⟨.emptyTable, "Table name is required"⟩ := by
  by_cases hsel : q.type = .select
  · simp [QueryBuilder.buildResult, hsel]
  · cases htype : q.type <;>
      simp_all [QueryBuilder.buildResult, QueryBuilder.buildInsert,
        QueryBuilder.buildUpdate]

/-- Witness for C4's amended theorem: a DELETE with an empty table yields
the `EmptyTable` error; the SELECT from an empty table does not. -/
theorem empty_table_error_except_select_witness :
    (QueryBuilder.buildResult (QueryBuilder.empty.deleteFromTable "")).1
      = .err ⟨.emptyTable, "Table name is required"⟩
    ∧ (QueryBuilder.buildResult emptyTableSelect).1
      = .ok (QueryBuilder.buildSelect emptyTableSelect) := by
  have h1 := empty_table_error_except_select (QueryBuilder.empty.deleteFromTable "") rfl
  have h2 := empty_table_error_except_select emptyTableSelect rfl
  exact ⟨by simpa using h1, by simpa using h2⟩

/-! ## Claim C5: INSERT / UPDATE with zero value pairs -/

/-- C5 at the failing input: `buildInsert` / `buildUpdate` throw a
`QueryError{InvalidCondition}`, but `QueryError` is not derived from
`std::exception`, so the `catch (const std::exception&)` in `buildResult`
never catches it and the exception escapes `buildResult` (and `build`) in
both error-policy modes, instead of being returned as the typed
`InvalidCondition` error result the catch block was written to produce.
The non-SELECT empty-table half of the claim does hold. -/
theorem insert_zero_values_exception_escapes :
    (QueryBuilder.buildResult zeroValuesInsert).1
      = .thrown ⟨.invalidCondition, "No values specified for INSERT"⟩
    ∧ (QueryBuilder.build zeroValuesInsert).1
      = .thrown ⟨.invalidCondition, "No values specified for INSERT"⟩
    ∧ (QueryBuilder.buildResult (QueryBuilder.empty.updateTable "users")).1
      = .thrown ⟨.invalidCondition, "No values specified for UPDATE"⟩
    ∧ (QueryBuilder.buildResult (QueryBuilder.empty.deleteFromTable "")).2.last_error
      = some ⟨.emptyTable, "Table name is required"⟩ := by
  decide

end SqlQB

namespace SqlQB

/-! ## Claim C6: AND/OR composition is fully parenthesized -/

/-- C6: `a && b` renders as `(A) AND (B)` and `(a && b) || c` renders as
`((A) AND (B)) OR (C)`, where `A`, `B`, `C` are the operands' renderings
captured at combination time. -/
theorem compound_fully_parenthesized (a b c : Condition) :
    (a.andC b).render = "(" ++ a.render ++ ") AND (" ++ b.render ++ ")"
    ∧ ((a.andC b).orC c).render
      = "((" ++ a.render ++ ") AND (" ++ b.render ++ ")) OR (" ++ c.render ++ ")" := by
  have hand : (a.andC b).render = "(" ++ a.render ++ ") AND (" ++ b.render ++ ")" := by
    show "(" ++ a.render ++ ") " ++ "AND" ++ " (" ++ b.render ++ ")" = _
    apply String.ext
    simp [String.data_append]
  refine ⟨hand, ?_⟩
  show "(" ++ (a.andC b).render ++ ") " ++ "OR" ++ " (" ++ c.render ++ ")" = _
  rw [hand]
  apply String.ext
  simp [String.data_append]

/-! ## Claim C7: IN lists silently truncate to MaxInValues -/

/-- C7: an IN (or NOT IN) condition built from a list longer than
`MaxInValues` silently keeps exactly the first `MaxInValues` values, in
order, renders them comma-separated, and records no error: appending it
through `whereIn` on a builder below its condition capacity leaves
`last_error` untouched. -/
theorem in_list_truncates_silently (cfg : Config) (column : String)
    (vs : List SqlValue) (hlong : cfg.MaxInValues < vs.length) :
    (Condition.inCond cfg column vs).data = .inD (vs.take cfg.MaxInValues)
    ∧ (Condition.inCond cfg column vs).render
      = column ++ " IN ("
        ++ commaJoin ((vs.take cfg.MaxInValues).map SqlValue.toSqlString) ++ ")"
    ∧ (Condition.notInCond cfg column vs).render
      = column ++ " NOT IN ("
        ++ commaJoin ((vs.take cfg.MaxInValues).map SqlValue.toSqlString) ++ ")"
    ∧ ∀ q : QueryBuilder, q.where_conditions.length < cfg.MaxConditions →
        (q.whereIn cfg column vs).last_error = q.last_error
        ∧ (q.whereIn cfg column vs).where_conditions
          = q.where_conditions ++ [Condition.inCond cfg column vs] := by
  refine ⟨rfl, ?_, ?_, ?_⟩
  · simp [Condition.inCond, Condition.render, Condition.body, Condition.invalid]
  · simp [Condition.notInCond, Condition.inCond, Condition.render,
      Condition.body, Condition.invalid]
  · intro q hq
    constructor <;> simp [QueryBuilder.whereIn, not_le.mpr hq]

/-- Witness for C7: two values against a capacity of one keeps only the
first value, renders it alone, and records no error on an empty builder. -/
theorem in_list_truncates_silently_witness :
    (Condition.inCond tinyConfig "id" [SqlValue.int 1, SqlValue.int 2]).data
      = .inD [SqlValue.int 1]
    ∧ (Condition.inCond tinyConfig "id" [SqlValue.int 1, SqlValue.int 2]).render
      = "id" ++ " IN (" ++ commaJoin ["1"] ++ ")"
    ∧ (QueryBuilder.empty.whereIn tinyConfig "id"
        [SqlValue.int 1, SqlValue.int 2]).last_error = Option.none :=
  have h := in_list_truncates_silently tinyConfig "id"
    [SqlValue.int 1, SqlValue.int 2] (by decide)
  ⟨h.1, by simpa using h.2.1, (h.2.2.2 QueryBuilder.empty (by decide)).1⟩

end SqlQB

namespace SqlQB

/-! ## Claim C8: build is deterministic and idempotent -/

theorem buildResult_snd_of_renderable (q : QueryBuilder)
    (h : ¬(q.table = "" ∧ q.type ≠ .select)) :
    (QueryBuilder.buildResult q).2 = q := by
  unfold QueryBuilder.buildResult
  rw [if_neg h]
  cases htype : q.type
  · rfl
  · cases hins : QueryBuilder.buildInsert q false <;> simp [hins]
  · cases hins : QueryBuilder.buildInsert q true <;> simp [hins]
  · cases hupd : QueryBuilder.buildUpdate q <;> simp [hupd]
  · rfl
  · rfl

/-- C8: calling `buildResult` a second time on the builder state left
behind by the first call yields the identical outcome and the identical
state, and the same holds for `build`: rendering is deterministic,
idempotent, and side-effect-free apart from the `last_error_` update the
first call already performed. -/
theorem buildResult_idempotent (q : QueryBuilder) :
    QueryBuilder.buildResult (QueryBuilder.buildResult q).2
      = QueryBuilder.buildResult q
    ∧ QueryBuilder.build (QueryBuilder.build q).2 = QueryBuilder.build q := by
  have hbr : QueryBuilder.buildResult (QueryBuilder.buildResult q).2
      = QueryBuilder.buildResult q := by
    by_cases h : q.table = "" ∧ q.type ≠ .select
    · simp [QueryBuilder.buildResult, h]
    · rw [buildResult_snd_of_renderable q h]
  refine ⟨hbr, ?_⟩
  show QueryBuilder.build (QueryBuilder.build q).2 = QueryBuilder.build q
  have hsnd : (QueryBuilder.build q).2 = (QueryBuilder.buildResult q).2 := by
    rw [QueryBuilder.build]
    rcases QueryBuilder.buildResult q with ⟨r, q2⟩
    cases r <;> rfl
  rw [QueryBuilder.build, hsnd, hbr, ← QueryBuilder.build]

/-! ## Claim C9: placeholder rendering -/

/-- C9: a placeholder renders as `?` when its name is empty, verbatim when
the name already starts with `:`, `@` or `$`, and as `:name` (colon
synthesized at construction) otherwise. -/
theorem placeholder_render_cases (name : String) :
    (SqlValue.placeholder (Placeholder.make name)).toSqlString
      = (match name.data with
         | [] => "?"
         | c :: _ => if c = ':' ∨ c = '@' ∨ c = '$' then name else ":" ++ name) := by
  show (Placeholder.make name).render = _
  rcases hname : name.data with _ | ⟨c, rest⟩
  · simp [Placeholder.make, Placeholder.render, hname]
  · by_cases h1 : c = ':'
    · simp [Placeholder.make, Placeholder.render, hname, h1]
    · by_cases h2 : c = '@'
      · simp [Placeholder.make, Placeholder.render, hname, h1, h2]
      · by_cases h3 : c = '$'
        · simp [Placeholder.make, Placeholder.render, hname, h1, h2, h3]
        · simp [Placeholder.make, Placeholder.render, hname, h1, h2, h3]

/-! ## Claim C10: empty selection renders as `*` -/

/-- C10: a SELECT with zero accumulated columns renders its column list as
the single `*`, the full statement is `SELECT [DISTINCT ]* FROM ...`, and
the empty selection is not an error: `buildResult` succeeds and leaves the
builder (including `last_error_`) untouched. -/
theorem empty_selection_renders_star (q : QueryBuilder)
    (htype : q.type = .select) (hcols : q.select_columns = []) :
    QueryBuilder.selectColumnsSeg q = "*"
    ∧ QueryBuilder.buildSelect q
      = "SELECT " ++ (if q.distinct then "DISTINCT " else "") ++ "*"
        ++ " FROM " ++ q.table
        ++ QueryBuilder.joinsSeg q ++ QueryBuilder.whereSeg q
        ++ QueryBuilder.groupBySeg q ++ QueryBuilder.orderBySeg q
        ++ QueryBuilder.limitSeg q ++ QueryBuilder.offsetSeg q
    ∧ QueryBuilder.buildResult q = (.ok (QueryBuilder.buildSelect q), q) := by
  have hseg : QueryBuilder.selectColumnsSeg q = "*" := by
    simp [QueryBuilder.selectColumnsSeg, hcols]
  refine ⟨hseg, ?_, ?_⟩
  · rw [QueryBuilder.buildSelect, hseg]
  · simp [QueryBuilder.buildResult, htype]

/-- Witness for C10: `select([]).from("users")` renders `SELECT * FROM
users` with no error. -/
theorem empty_selection_renders_star_witness :
    QueryBuilder.selectColumnsSeg (QueryBuilder.empty.fromTable "users") = "*"
    ∧ QueryBuilder.buildResult (QueryBuilder.empty.fromTable "users")
      = (.ok (QueryBuilder.buildSelect (QueryBuilder.empty.fromTable "users")),
         QueryBuilder.empty.fromTable "users") :=
  have h := empty_selection_renders_star (QueryBuilder.empty.fromTable "users") rfl rfl
  ⟨h.1, h.2.2⟩

end SqlQB
